import Mathlib

/-!
Verification development for the news aggregator `newsbot.py`.

The Python source is shallowly embedded below: pure helpers become Lean
functions, the Notion store and news feeds become explicit oracles
(`Except` results and success predicates), and the observable I/O of a run
is recorded as a trace of `Op` effects.  Python string truthiness
(`if self.title`) is modelled by testing for the empty string, absent
values (`None`) by `Option`, and a Python `set` of strings by a list
queried with membership.
-/

set_option maxRecDepth 4096

namespace Newsbot

/-- Characters stripped by Python `str.strip()` with no arguments
(space, tab, newline, carriage return, vertical tab, form feed). -/
def isPyWhitespace (c : Char) : Bool :=
  c == ' ' || c == '\t' || c == '\n' || c == '\r' || c.val == 11 || c.val == 12

/-- Python `s.strip()`: drop leading and trailing whitespace. -/
def pyStrip (s : String) : String :=
  String.mk (((s.data.dropWhile isPyWhitespace).reverse.dropWhile isPyWhitespace).reverse)

/-- Embeds `x.strip() if x else fallback` where `x` is an optional string
field (`None` and `""` are both falsy in Python). -/
def stripOr (raw : Option String) (fallback : String) : String :=
  match raw with
  | none => fallback
  | some s => if s = "" then fallback else pyStrip s

/-- Embeds `if not self.published_at: self.published_at = now_iso` —
the raw value is kept verbatim whenever it is a non-empty string. -/
def orNow (raw : Option String) (now : String) : String :=
  match raw with
  | none => now
  | some s => if s = "" then now else s

/-- Canonical article record (`NewsArticle` dataclass fields after
`__post_init__` ran). -/
structure NewsArticle where
  title : String
  source : String
  url : String
  category : String
  published_at : String
deriving DecidableEq, Repr

/-- Embeds constructing `NewsArticle(...)` followed by `__post_init__`:
every field gets its sentinel when absent or empty, is otherwise stripped
(`published_at` is kept verbatim), and the construction is a total
function — it never raises. -/
def mkNewsArticle (title source url category published_at : Option String)
    (now : String) : NewsArticle :=
  { title := stripOr title "No Title"
  , source := stripOr source "Unknown"
  , url := stripOr url ""
  , category := stripOr category "General"
  , published_at := orNow published_at now }

/-- Characters allowed in a URL scheme after the first
(`scheme_chars` in CPython `urllib.parse`). -/
def isSchemeChar (c : Char) : Bool :=
  c.isAlpha || c.isDigit || c == '+' || c == '-' || c == '.'

/-- Walks to the first `:`; succeeds only when every character before it
is a scheme character, mirroring the `for`/`else` scan in `urlsplit`. -/
def splitSchemeAux : List Char → List Char → Option (List Char × List Char)
  | [], _ => none
  | c :: rest, acc =>
    if c == ':' then some (acc.reverse, rest)
    else if isSchemeChar c then splitSchemeAux rest (c :: acc)
    else none

/-- Scheme extraction of CPython 3.11 `urlsplit`: a scheme is split off
only when the URL starts with an ASCII letter and a `:` follows a run of
scheme characters; the scheme is lowercased. -/
def splitScheme (cs : List Char) : List Char × List Char :=
  match cs with
  | [] => ([], [])
  | c :: _ =>
    if c.isAlpha then
      match splitSchemeAux cs [] with
      | some (sch, rest) => (sch.map Char.toLower, rest)
      | none => ([], cs)
    else ([], cs)

/-- CPython `_splitnetloc`: the netloc runs up to the first `/`, `?` or
`#`. -/
def splitNetlocChars (cs : List Char) : List Char :=
  cs.takeWhile (fun c => !(c == '/' || c == '?' || c == '#'))

/-- WHATWG C0 control characters and space, stripped from the front of a
URL by `urlsplit`. -/
def isC0ControlOrSpace (c : Char) : Bool :=
  c.val ≤ 32

/-- Tab, CR and LF are removed anywhere in the URL by `urlsplit`. -/
def isUnsafeUrlChar (c : Char) : Bool :=
  c == '\t' || c == '\r' || c == '\n'

/-- The `scheme` and `netloc` components of a parsed URL. -/
structure SplitResult where
  scheme : String
  netloc : String
deriving DecidableEq, Repr

/-- Core of CPython 3.11 `urllib.parse.urlsplit` restricted to the
`scheme` and `netloc` components; `none` models the `ValueError` raised
on a mismatched IPv6 bracket. -/
def urlsplitModel (url : String) : Option SplitResult :=
  let cs := (url.data.dropWhile isC0ControlOrSpace).filter (fun c => !(isUnsafeUrlChar c))
  let p := splitScheme cs
  if p.2.take 2 = ['/', '/'] then
    let netloc := splitNetlocChars (p.2.drop 2)
    if (netloc.contains '[' && !(netloc.contains ']')) ||
       (netloc.contains ']' && !(netloc.contains '[')) then
      none
    else
      some ⟨String.mk p.1, String.mk netloc⟩
  else
    some ⟨String.mk p.1, ""⟩

/-- Embeds `NewsArticle._is_valid_url`: `urlparse` succeeds and both
`scheme` and `netloc` are non-empty (`all([result.scheme, result.netloc])`);
an exception yields `False`. -/
def _is_valid_url (url : String) : Bool :=
  match urlsplitModel url with
  | none => false
  | some r => !(r.scheme == "") && !(r.netloc == "")

/-- Embeds the `NewsArticle.is_valid` property: the Python truthiness of
`title and title != "No Title" and url and _is_valid_url(url)`. -/
def NewsArticle.is_valid (a : NewsArticle) : Bool :=
  !(a.title == "") && !(a.title == "No Title") && !(a.url == "") && _is_valid_url a.url

/-- Observable store and feed effects of one run, in call order:
schema setup, whole-database stats query, cleanup filter query,
archiving one page, one feed client fetch, the paginated headline scan,
creating one page, printing the execution summary. -/
inductive Op where
  | schemaSetup
  | statsQuery
  | cleanupQuery
  | archivePage (id : Nat)
  | fetchFeed (i : Nat)
  | scanHeadlines
  | createPage (title : String)
  | printSummary
deriving DecidableEq, Repr

/-- Embeds the title extraction of `get_existing_headlines`: each store
page row either has no title data (`none`) or a raw content string; the
content is stripped and collected when non-empty.  The Python `set` is
modelled as the list of collected titles. -/
def extractTitles : List (Option String) → List String
  | [] => []
  | none :: rest => extractTitles rest
  | some c :: rest =>
    if pyStrip c = "" then extractTitles rest else pyStrip c :: extractTitles rest

/-- Embeds `NotionManager.get_existing_headlines`.  `cache` is
`self._existing_titles`; `scanResult` is the outcome of the paginated
query loop (`Except.error` models a raised store read error).  Returns
the headline set together with the new cache: a failed scan returns the
empty set — the function itself never raises — and leaves the cache
unset. -/
def get_existing_headlines (cache : Option (List String))
    (scanResult : Except Unit (List (Option String))) :
    List String × Option (List String) :=
  match cache with
  | some ts => (ts, some ts)
  | none =>
    match scanResult with
    | Except.ok rows => (extractTitles rows, some (extractTitles rows))
    | Except.error _ => ([], none)

/-- Counters and artefacts of `NotionManager.add_articles`: the three
counters, the final in-memory headline index, and the created records in
creation order. -/
structure AddResult where
  added : Nat
  skipped : Nat
  errors : Nat
  index : List String
  created : List NewsArticle
deriving DecidableEq, Repr

/-- Embeds the `for article in articles` loop of `add_articles`:
in fetch order, an invalid article is skipped, an article whose title is
in the index is skipped, otherwise the page create is attempted —
`createOk` says whether `_create_page` succeeds — and on success the
title is immediately added to the in-memory index; a failed create
counts as an error and does not touch the index. -/
def addArticlesLoop (createOk : NewsArticle → Bool) :
    List NewsArticle → List String → AddResult
  | [], idx => ⟨0, 0, 0, idx, []⟩
  | a :: rest, idx =>
    if !a.is_valid then
      let r := addArticlesLoop createOk rest idx
      { r with skipped := r.skipped + 1 }
    else if a.title ∈ idx then
      let r := addArticlesLoop createOk rest idx
      { r with skipped := r.skipped + 1 }
    else if createOk a then
      let r := addArticlesLoop createOk rest (a.title :: idx)
      { r with added := r.added + 1, created := a :: r.created }
    else
      let r := addArticlesLoop createOk rest idx
      { r with errors := r.errors + 1 }

/-- Store ops emitted by the successful page creations of one batch. -/
def createOps (created : List NewsArticle) : List Op :=
  created.map (fun a => Op.createPage a.title)

/-- Embeds `NotionManager.add_articles`: an empty batch returns
`(0, 0, 0)` at once with no store traffic; otherwise the headline index
is loaded by one paginated scan and the batch is processed in order. -/
def add_articles (createOk : NewsArticle → Bool)
    (scanResult : Except Unit (List (Option String)))
    (articles : List NewsArticle) : AddResult × List Op :=
  match articles with
  | [] => (⟨0, 0, 0, [], []⟩, [])
  | _ =>
    let r := addArticlesLoop createOk articles (get_existing_headlines none scanResult).1
    (r, Op.scanHeadlines :: createOps r.created)

/-- A record persisted in the store, with its page id and the
`Added At` timestamp (seconds since an arbitrary epoch). -/
structure StoredRecord where
  id : Nat
  title : String
  added_at : Int
deriving DecidableEq, Repr

/-- Seconds in a day, the unit behind `timedelta(days=retention_days)`. -/
def secondsPerDay : Int := 86400

/-- Embeds the per-page archive loop of `cleanup_old_articles`:
each matching record is archived; a failed archive (`archiveOk` false) is
logged and the loop continues; the count of successful archives is
returned. -/
def cleanupLoop (archiveOk : Nat → Bool) : List StoredRecord → Nat
  | [] => 0
  | r :: rest =>
    if archiveOk r.id then cleanupLoop archiveOk rest + 1
    else cleanupLoop archiveOk rest

/-- Embeds `NotionManager.cleanup_old_articles`.  With auto-delete
disabled it returns 0 with no store traffic.  Otherwise the store is
queried with the filter `Added At before cutoff` where
`cutoff = now - retention_days` (as a duration in days), every matching
record has an archive attempted, and the number of successful archives
is returned together with the emitted store ops. -/
def cleanup_old_articles (enableAutoDelete : Bool) (archiveOk : Nat → Bool)
    (store : List StoredRecord) (retention_days : Int) (now : Int) :
    Nat × List Op :=
  if !enableAutoDelete then (0, [])
  else
    let cutoff := now - retention_days * secondsPerDay
    let matching := store.filter (fun r => decide (r.added_at < cutoff))
    (cleanupLoop archiveOk matching,
     Op.cleanupQuery :: matching.map (fun r => Op.archivePage r.id))

/-- External world of one run: whether `setup_database` succeeds, the
auto-delete flag, the stored records and current time seen by the sweep,
the per-page archive and create outcomes, the article lists returned by
the configured feed clients (a failed client contributes `[]`), and the
outcome of the headline scan. -/
structure RunEnv where
  schemaOk : Bool
  enableAutoDelete : Bool
  store : List StoredRecord
  retention_days : Int
  now : Int
  archiveOk : Nat → Bool
  feeds : List (List NewsArticle)
  scanResult : Except Unit (List (Option String))
  createOk : NewsArticle → Bool

/-- What a whole process run did: the `sys.exit` code if any, the trace
of store and feed effects in order, and whether the execution summary
was printed. -/
structure RunOutcome where
  exitCode : Option Nat
  trace : List Op
  summaryPrinted : Bool
deriving DecidableEq, Repr

/-- Embeds `NewsAggregator.run`: schema setup (failure exits with code
1 before any further call), initial stats, cleanup sweep, feed fetches;
when no articles were fetched the run returns early — without printing
the summary; otherwise the batch is inserted, final stats are read and
the summary is printed. -/
def run (env : RunEnv) : RunOutcome :=
  if !env.schemaOk then
    { exitCode := some 1, trace := [Op.schemaSetup], summaryPrinted := false }
  else
    let clean := cleanup_old_articles env.enableAutoDelete env.archiveOk
      env.store env.retention_days env.now
    let fetchOps := (List.range env.feeds.length).map Op.fetchFeed
    let articles := env.feeds.flatten
    let baseOps := Op.schemaSetup :: Op.statsQuery :: clean.2 ++ fetchOps
    match articles with
    | [] => { exitCode := none, trace := baseOps, summaryPrinted := false }
    | _ =>
      let add := add_articles env.createOk env.scanResult articles
      { exitCode := none
      , trace := baseOps ++ add.2 ++ [Op.statsQuery, Op.printSummary]
      , summaryPrinted := true }

/-- Embeds `run_cleanup_only`: schema setup (failure exits with code 1),
stats, the sweep, final stats, and the cleanup report; no fetch and no
insert ever happen in this mode. -/
def run_cleanup_only (env : RunEnv) : RunOutcome :=
  if !env.schemaOk then
    { exitCode := some 1, trace := [Op.schemaSetup], summaryPrinted := false }
  else
    let clean := cleanup_old_articles env.enableAutoDelete env.archiveOk
      env.store env.retention_days env.now
    { exitCode := none
    , trace := Op.schemaSetup :: Op.statsQuery :: clean.2 ++ [Op.statsQuery]
    , summaryPrinted := true }

/-- Embeds the closed `select` enumeration for `Source` declared in
`setup_database` and checked in `_validate_option`. -/
def valid_sources : List String :=
  ["GNews", "MediaStack", "Currents", "Manual", "Unknown"]

/-- Embeds the closed `select` enumeration for `Category`. -/
def valid_categories : List String :=
  ["General", "Sports", "Politics", "Business", "Technology", "Entertainment", "Health"]

/-- Embeds `NotionManager._validate_option`. -/
def _validate_option (value : String) (field_type : String) : String :=
  if field_type = "source" then
    if value ∈ valid_sources then value else "Unknown"
  else if field_type = "category" then
    if value ∈ valid_categories then value else "General"
  else value

/-- The property payload written by `NotionManager._create_page`. -/
structure PageProperties where
  headline : String
  source : String
  url : String
  category : String
  published_at : String
  added_at : String
deriving DecidableEq, Repr

/-- Embeds `NotionManager._create_page`: the article's fields are mapped
to the page properties, with `source` and `category` coerced through
`_validate_option` immediately before the create call. -/
def _create_page (a : NewsArticle) (now : String) : PageProperties :=
  { headline := a.title
  , source := _validate_option a.source "source"
  , url := a.url
  , category := _validate_option a.category "category"
  , published_at := a.published_at
  , added_at := now }

/-- A valid fetched article titled "A". -/
def articleA1 : NewsArticle :=
  mkNewsArticle (some "A") (some "GNews") (some "https://example.com/a1")
    (some "General") (some "2024-01-01T00:00:00+00:00") "2024-01-02T00:00:00+00:00"

/-- A valid fetched article titled "B". -/
def articleB : NewsArticle :=
  mkNewsArticle (some "B") (some "MediaStack") (some "https://example.com/b")
    (some "Sports") (some "2024-01-01T01:00:00+00:00") "2024-01-02T00:00:00+00:00"

/-- A second valid fetched article titled "A", from a different URL. -/
def articleA2 : NewsArticle :=
  mkNewsArticle (some "A") (some "Currents") (some "https://example.com/a2")
    (some "General") (some "2024-01-01T02:00:00+00:00") "2024-01-02T00:00:00+00:00"

/-- An article built from a whitespace-only raw title and a free-form
`published_at` string: `"   "` is truthy in Python, so `__post_init__`
strips it to the empty string instead of substituting the sentinel, and
the `published_at` value is stored verbatim. -/
def c2Article : NewsArticle :=
  mkNewsArticle (some "   ") (some "GNews") (some "https://example.com/x")
    (some "General") (some "not a timestamp") "2024-01-02T00:00:00+00:00"

/-- An article with empty (whitespace-only raw) title but a perfectly
valid URL. -/
def c6Article : NewsArticle :=
  mkNewsArticle (some "   ") (some "GNews") (some "https://example.com/a")
    (some "General") (some "2024-01-01T00:00:00+00:00") "2024-01-02T00:00:00+00:00"

/-- Marks the feed-fetch and page-create effects. -/
def isFetchOrCreate : Op → Bool
  | Op.fetchFeed _ => true
  | Op.createPage _ => true
  | _ => false

/-- An environment whose schema setup fails. -/
def envNoSchema : RunEnv :=
  { schemaOk := false, enableAutoDelete := true, store := [], retention_days := 3
  , now := 0, archiveOk := fun _ => true, feeds := [[articleA1]]
  , scanResult := Except.ok [], createOk := fun _ => true }

/-- An environment that passes schema setup but where every feed client
returns zero articles. -/
def envC7 : RunEnv :=
  { schemaOk := true, enableAutoDelete := true, store := [], retention_days := 3
  , now := 0, archiveOk := fun _ => true, feeds := [[], [], []]
  , scanResult := Except.ok [], createOk := fun _ => true }

/-- Like `envC7` but one feed returns one article. -/
def envC7w : RunEnv :=
  { envC7 with feeds := [[articleB]] }

/-! Helper lemmas about the loops. -/

/-- The archive loop counts exactly the records whose archive call
succeeded. -/
theorem cleanupLoop_eq_filter_length (archiveOk : Nat → Bool) :
    ∀ l : List StoredRecord,
      cleanupLoop archiveOk l = (l.filter (fun r => archiveOk r.id)).length := by
  intro l
  induction l with
  | nil => rfl
  | cons r rest ih =>
    cases hr : archiveOk r.id with
    | false => simp [cleanupLoop, hr, List.filter_cons, ih]
    | true => simp [cleanupLoop, hr, List.filter_cons, ih]

/-- Each article of the batch bumps exactly one of the three counters. -/
theorem addArticlesLoop_counts (createOk : NewsArticle → Bool) :
    ∀ (articles : List NewsArticle) (idx : List String),
      (addArticlesLoop createOk articles idx).added
        + (addArticlesLoop createOk articles idx).skipped
        + (addArticlesLoop createOk articles idx).errors
        = articles.length := by
  intro articles
  induction articles with
  | nil => intro idx; rfl
  | cons a rest ih =>
    intro idx
    cases hv : a.is_valid with
    | false =>
      have h := ih idx
      simp [addArticlesLoop, hv]
      omega
    | true =>
      by_cases hd : a.title ∈ idx
      · have h := ih idx
        simp [addArticlesLoop, hv, hd]
        omega
      · cases hc : createOk a with
        | true =>
          have h := ih (a.title :: idx)
          simp [addArticlesLoop, hv, hd, hc]
          omega
        | false =>
          have h := ih idx
          simp [addArticlesLoop, hv, hd, hc]
          omega

/-- The titles of the records created by one batch are pairwise distinct
and none of them was in the initial index: a created title goes into the
index at once, so any later occurrence in the same batch is skipped
before another create is attempted. -/
theorem addArticlesLoop_created_fresh (createOk : NewsArticle → Bool) :
    ∀ (articles : List NewsArticle) (idx : List String),
      ((addArticlesLoop createOk articles idx).created.map
          (fun a => a.title)).Pairwise (fun s t => s ≠ t)
      ∧ ∀ t ∈ (addArticlesLoop createOk articles idx).created.map
          (fun a => a.title), t ∉ idx := by
  intro articles
  induction articles with
  | nil => intro idx; exact ⟨List.Pairwise.nil, by simp [addArticlesLoop]⟩
  | cons a rest ih =>
    intro idx
    cases hv : a.is_valid with
    | false =>
      have h := ih idx
      simpa [addArticlesLoop, hv] using h
    | true =>
      by_cases hd : a.title ∈ idx
      · have h := ih idx
        simpa [addArticlesLoop, hv, hd] using h
      · cases hc : createOk a with
        | false =>
          have h := ih idx
          simpa [addArticlesLoop, hv, hd, hc] using h
        | true =>
          have h := ih (a.title :: idx)
          have hcreated : (addArticlesLoop createOk (a :: rest) idx).created
              = a :: (addArticlesLoop createOk rest (a.title :: idx)).created := by
            simp [addArticlesLoop, hv, hd, hc]
          rw [hcreated]
          simp only [List.map_cons, List.pairwise_cons, List.mem_cons]
          refine ⟨⟨?_, h.1⟩, ?_⟩
          · intro t ht
            have hni := h.2 t ht
            simp only [List.mem_cons, not_or] at hni
            exact fun he => hni.1 he.symm
          · intro t ht
            rcases ht with rfl | ht
            · exact hd
            · have hni := h.2 t ht
              simp only [List.mem_cons, not_or] at hni
              exact hni.2

/-- No page-create op is the headline scan op. -/
theorem createOps_count_scan (l : List NewsArticle) :
    (createOps l).count Op.scanHeadlines = 0 := by
  simp [createOps, List.count_eq_zero]

/-! Claim theorems. -/

/-- C1: in the Deduplicated step articles are processed in fetch order —
invalid or already-indexed articles are skipped, every created article's
title enters the in-memory index at once, so a later same-titled article
of the same batch is skipped.  For a store holding headline "A" and the
valid batch titled ["A", "B", "A"], `add_articles` creates exactly the
one record titled "B" and reports `skipped = 2`; in general the created
titles of any batch are pairwise distinct. -/
theorem C1_dedup_batch :
    ((add_articles (fun _ => true) (Except.ok [some "A"])
        [articleA1, articleB, articleA2]).1.added = 1 ∧
     (add_articles (fun _ => true) (Except.ok [some "A"])
        [articleA1, articleB, articleA2]).1.skipped = 2 ∧
     (add_articles (fun _ => true) (Except.ok [some "A"])
        [articleA1, articleB, articleA2]).1.errors = 0 ∧
     (add_articles (fun _ => true) (Except.ok [some "A"])
        [articleA1, articleB, articleA2]).1.created = [articleB] ∧
     articleA1.title = "A" ∧ articleB.title = "B" ∧ articleA2.title = "A" ∧
     articleA1.is_valid = true ∧ articleB.is_valid = true ∧
     articleA2.is_valid = true) ∧
    (∀ (createOk : NewsArticle → Bool) (articles : List NewsArticle)
        (idx : List String),
      ((addArticlesLoop createOk articles idx).created.map
          (fun a => a.title)).Pairwise (fun s t => s ≠ t)) := by
  refine ⟨by decide, ?_⟩
  intro createOk articles idx
  exact (addArticlesLoop_created_fresh createOk articles idx).1

/-- C2 fails as stated: the raw title `"   "` is truthy in Python, so the
sentinel is not substituted and `strip()` leaves the empty string; the
raw `published_at` is also stored verbatim, unparsed. -/
theorem C2_counterexample :
    c2Article.title = "" ∧ c2Article.published_at = "not a timestamp" := by
  decide

/-- C2 (amended): constructing a `NewsArticle` never raises (the
embedding is a total function), and `title`, `source` and `category` are
non-empty provided no corresponding raw value is a non-empty
whitespace-only string (absent or empty raw values get the sentinels
"No Title" / "Unknown" / "General"); `published_at` is the ingestion
time when the raw value is absent or empty and the raw string verbatim
otherwise. -/
theorem C2_normalize_amended (t s u c p : Option String) (now : String)
    (ht : ∀ x, t = some x → x ≠ "" → pyStrip x ≠ "")
    (hs : ∀ x, s = some x → x ≠ "" → pyStrip x ≠ "")
    (hc : ∀ x, c = some x → x ≠ "" → pyStrip x ≠ "") :
    (mkNewsArticle t s u c p now).title ≠ "" ∧
    (mkNewsArticle t s u c p now).source ≠ "" ∧
    (mkNewsArticle t s u c p now).category ≠ "" ∧
    ((p = none ∨ p = some "") → (mkNewsArticle t s u c p now).published_at = now) ∧
    (∀ x, p = some x → x ≠ "" → (mkNewsArticle t s u c p now).published_at = x) := by
  refine ⟨?_, ?_, ?_, ?_, ?_⟩
  · cases t with
    | none =>
      show stripOr none "No Title" ≠ ""
      decide
    | some x =>
      by_cases hx : x = ""
      · simp [mkNewsArticle, stripOr, hx]
      · simpa [mkNewsArticle, stripOr, hx] using ht x rfl hx
  · cases s with
    | none =>
      show stripOr none "Unknown" ≠ ""
      decide
    | some x =>
      by_cases hx : x = ""
      · simp [mkNewsArticle, stripOr, hx]
      · simpa [mkNewsArticle, stripOr, hx] using hs x rfl hx
  · cases c with
    | none =>
      show stripOr none "General" ≠ ""
      decide
    | some x =>
      by_cases hx : x = ""
      · simp [mkNewsArticle, stripOr, hx]
      · simpa [mkNewsArticle, stripOr, hx] using hc x rfl hx
  · intro hp
    rcases hp with rfl | rfl
    · rfl
    · rfl
  · intro x hp hx
    subst hp
    simp [mkNewsArticle, orNow, hx]

/-- Witness for C2 (amended) at a concrete input. -/
theorem C2_normalize_witness :
    (mkNewsArticle (some "Hello") none none none none "T").title ≠ "" ∧
    (mkNewsArticle (some "Hello") none none none none "T").source ≠ "" ∧
    (mkNewsArticle (some "Hello") none none none none "T").category ≠ "" ∧
    (((none : Option String) = none ∨ (none : Option String) = some "") →
      (mkNewsArticle (some "Hello") none none none none "T").published_at = "T") ∧
    (∀ x, (none : Option String) = some x → x ≠ "" →
      (mkNewsArticle (some "Hello") none none none none "T").published_at = x) :=
  C2_normalize_amended (some "Hello") none none none none "T"
    (by intro x hx hne; injection hx with h; subst h; decide)
    (by intro x hx hne; exact Option.noConfusion hx)
    (by intro x hx hne; exact Option.noConfusion hx)

/-- C3: the retention sweep queries the store with the filter
`added_at < now - retentionPeriod`, attempts to archive exactly the
matching records, keeps going past per-record archive failures, and
returns the number of successful archives.  Concretely with a retention
period of 3 days a record added 4 days ago is archived while one added
2 days ago is not, and a failed archive on one record does not stop the
archive of the next. -/
theorem C3_retention_sweep :
    (∀ (archiveOk : Nat → Bool) (store : List StoredRecord) (rd now : Int),
      (cleanup_old_articles true archiveOk store rd now).2
        = Op.cleanupQuery ::
            (store.filter
              (fun r => decide (r.added_at < now - rd * secondsPerDay))).map
              (fun r => Op.archivePage r.id) ∧
      (cleanup_old_articles true archiveOk store rd now).1
        = ((store.filter
              (fun r => decide (r.added_at < now - rd * secondsPerDay))).filter
            (fun r => archiveOk r.id)).length) ∧
    cleanup_old_articles true (fun _ => true)
        [⟨1, "old", -4 * secondsPerDay⟩, ⟨2, "recent", -2 * secondsPerDay⟩] 3 0
      = (1, [Op.cleanupQuery, Op.archivePage 1]) ∧
    cleanup_old_articles true (fun i => i == 2)
        [⟨1, "old1", -4 * secondsPerDay⟩, ⟨2, "old2", -4 * secondsPerDay⟩] 3 0
      = (1, [Op.cleanupQuery, Op.archivePage 1, Op.archivePage 2]) := by
  refine ⟨?_, by decide, by decide⟩
  intro archiveOk store rd now
  exact ⟨rfl, cleanupLoop_eq_filter_length archiveOk _⟩

/-- C4: if schema setup fails, the full run and the cleanup-only run
both exit with code 1, and the effect trace contains no feed fetch and
no page create. -/
theorem C4_schema_failure_aborts (env : RunEnv) (h : env.schemaOk = false) :
    (run env).exitCode = some 1 ∧
    (run env).trace.filter isFetchOrCreate = [] ∧
    (run_cleanup_only env).exitCode = some 1 ∧
    (run_cleanup_only env).trace.filter isFetchOrCreate = [] := by
  have hr : run env = ⟨some 1, [Op.schemaSetup], false⟩ := by
    simp [run, h]
  have hco : run_cleanup_only env = ⟨some 1, [Op.schemaSetup], false⟩ := by
    simp [run_cleanup_only, h]
  rw [hr, hco]
  exact ⟨rfl, rfl, rfl, rfl⟩

/-- Witness for C4 at a concrete failing environment. -/
theorem C4_schema_failure_witness :
    envNoSchema.schemaOk = false ∧
    ((run envNoSchema).exitCode = some 1 ∧
     (run envNoSchema).trace.filter isFetchOrCreate = [] ∧
     (run_cleanup_only envNoSchema).exitCode = some 1 ∧
     (run_cleanup_only envNoSchema).trace.filter isFetchOrCreate = []) :=
  ⟨rfl, C4_schema_failure_aborts envNoSchema rfl⟩

/-- C5: at persistence time a source outside the closed enumeration is
written as "Unknown" and a category outside its enumeration as
"General", in-enumeration values are persisted unchanged, and the
coercion happens only at persistence — normalization keeps
"RandomProvider" and "sci-fi" intact on the record itself. -/
theorem C5_enum_coercion :
    (∀ (a : NewsArticle) (now : String),
      ((_create_page a now).source
        = if a.source ∈ valid_sources then a.source else "Unknown") ∧
      ((_create_page a now).category
        = if a.category ∈ valid_categories then a.category else "General")) ∧
    _validate_option "RandomProvider" "source" = "Unknown" ∧
    _validate_option "sci-fi" "category" = "General" ∧
    _validate_option "GNews" "source" = "GNews" ∧
    _validate_option "Sports" "category" = "Sports" ∧
    (mkNewsArticle (some "T") (some "RandomProvider")
        (some "https://example.com/x") (some "sci-fi") none "N").source
      = "RandomProvider" ∧
    (mkNewsArticle (some "T") (some "RandomProvider")
        (some "https://example.com/x") (some "sci-fi") none "N").category
      = "sci-fi" ∧
    (_create_page (mkNewsArticle (some "T") (some "RandomProvider")
        (some "https://example.com/x") (some "sci-fi") none "N") "N2").source
      = "Unknown" ∧
    (_create_page (mkNewsArticle (some "T") (some "RandomProvider")
        (some "https://example.com/x") (some "sci-fi") none "N") "N2").category
      = "General" := by
  refine ⟨?_, by decide, by decide, by decide, by decide, by decide, by decide,
    by decide, by decide⟩
  intro a now
  constructor
  · simp [_create_page, _validate_option]
  · simp [_create_page, _validate_option]

/-- C6 fails as stated: a record constructed from a whitespace-only raw
title has a title that is not the sentinel, a non-empty well-formed
absolute URL, and yet `is_valid` is false (the property also requires a
non-empty title). -/
theorem C6_counterexample :
    c6Article.title ≠ "No Title" ∧
    c6Article.url = "https://example.com/a" ∧
    c6Article.url ≠ "" ∧
    _is_valid_url c6Article.url = true ∧
    c6Article.is_valid = false := by
  decide

/-- C6 (amended): `is_valid` holds iff the title is non-empty, the title
is not the sentinel "No Title", the url is non-empty and the url parses
into an absolute URL with non-empty scheme and host; in particular it is
false for url "not-a-url" whatever the other fields, and true for
"https://example.com/b" with the non-sentinel title "B". -/
theorem C6_is_valid_amended :
    (∀ a : NewsArticle,
      a.is_valid = true ↔
        a.title ≠ "" ∧ a.title ≠ "No Title" ∧ a.url ≠ "" ∧
        _is_valid_url a.url = true) ∧
    (∀ (t s c p : Option String) (now : String),
      (mkNewsArticle t s (some "not-a-url") c p now).is_valid = false) ∧
    articleB.is_valid = true ∧ articleB.title = "B" := by
  refine ⟨?_, ?_, by decide, by decide⟩
  · intro a
    simp [NewsArticle.is_valid, and_assoc]
  · intro t s c p now
    have hu : (mkNewsArticle t s (some "not-a-url") c p now).url = "not-a-url" := by
      show stripOr (some "not-a-url") "" = "not-a-url"
      decide
    have hv : _is_valid_url "not-a-url" = false := by decide
    simp [NewsArticle.is_valid, hu, hv]

/-- C7 fails as stated: a run that passes schema setup but fetches zero
articles from every feed returns early without printing the execution
summary. -/
theorem C7_counterexample :
    envC7.schemaOk = true ∧
    (run envC7).exitCode = none ∧
    (run envC7).summaryPrinted = false ∧
    Op.printSummary ∉ (run envC7).trace := by
  decide

/-- C7 (amended): for a run that passes schema setup, the execution
summary is printed iff at least one article was fetched; with zero
fetched articles the run ends normally but without the summary. -/
theorem C7_summary_amended (env : RunEnv) (h : env.schemaOk = true) :
    ((run env).summaryPrinted = true ↔ env.feeds.flatten ≠ []) ∧
    (env.feeds.flatten ≠ [] → Op.printSummary ∈ (run env).trace) := by
  cases hf : env.feeds.flatten with
  | nil =>
    constructor
    · simp [run, h, hf]
    · intro hne
      exact absurd rfl hne
  | cons a rest =>
    constructor
    · simp [run, h, hf]
    · intro _
      simp [run, h, hf]

/-- Witness for C7 (amended) at a concrete environment with one fetched
article. -/
theorem C7_summary_witness :
    envC7w.schemaOk = true ∧
    (((run envC7w).summaryPrinted = true ↔ envC7w.feeds.flatten ≠ []) ∧
     (envC7w.feeds.flatten ≠ [] → Op.printSummary ∈ (run envC7w).trace)) :=
  ⟨rfl, C7_summary_amended envC7w rfl⟩

/-- C8: when the paginated headline scan fails, the dedup load returns
the empty index instead of raising, the insert phase still runs (the
batch is processed against the empty index), and the scan is performed
exactly once — it is not retried. -/
theorem C8_scan_failure (createOk : NewsArticle → Bool)
    (articles : List NewsArticle) (h : articles ≠ []) :
    get_existing_headlines none (Except.error ()) = ([], none) ∧
    (add_articles createOk (Except.error ()) articles).1
      = addArticlesLoop createOk articles [] ∧
    (add_articles createOk (Except.error ()) articles).2.count Op.scanHeadlines
      = 1 := by
  refine ⟨rfl, ?_, ?_⟩
  · cases articles with
    | nil => exact absurd rfl h
    | cons a rest => rfl
  · cases articles with
    | nil => exact absurd rfl h
    | cons a rest =>
      show (Op.scanHeadlines :: createOps
        (addArticlesLoop createOk (a :: rest) []).created).count Op.scanHeadlines
        = 1
      simp [List.count_cons, createOps_count_scan]

/-- Witness for C8 at a concrete one-article batch. -/
theorem C8_scan_failure_witness :
    ([articleB] ≠ ([] : List NewsArticle)) ∧
    (get_existing_headlines none (Except.error ()) = ([], none) ∧
     (add_articles (fun _ => true) (Except.error ()) [articleB]).1
       = addArticlesLoop (fun _ => true) [articleB] [] ∧
     (add_articles (fun _ => true) (Except.error ()) [articleB]).2.count
       Op.scanHeadlines = 1) :=
  ⟨by decide, C8_scan_failure (fun _ => true) [articleB] (by decide)⟩

/-- C9: the three counters of `add_articles` always sum to the length of
the input batch — every article bumps exactly one of them — and the
empty batch yields `(0, 0, 0)` with no store traffic. -/
theorem C9_counter_conservation :
    (∀ (createOk : NewsArticle → Bool)
        (scanResult : Except Unit (List (Option String)))
        (articles : List NewsArticle),
      (add_articles createOk scanResult articles).1.added
        + (add_articles createOk scanResult articles).1.skipped
        + (add_articles createOk scanResult articles).1.errors
        = articles.length) ∧
    (∀ (createOk : NewsArticle → Bool)
        (scanResult : Except Unit (List (Option String))),
      add_articles createOk scanResult [] = (⟨0, 0, 0, [], []⟩, [])) := by
  constructor
  · intro createOk scanResult articles
    cases articles with
    | nil => rfl
    | cons a rest => exact addArticlesLoop_counts createOk (a :: rest) _
  · intro createOk scanResult
    rfl

/-- C10: with the auto-delete flag off the retention sweep returns 0 at
once and emits no store operation at all — no query, no archive — so the
store is untouched by the sweep. -/
theorem C10_auto_delete_disabled :
    ∀ (archiveOk : Nat → Bool) (store : List StoredRecord) (rd now : Int),
      cleanup_old_articles false archiveOk store rd now = (0, []) := by
  intro archiveOk store rd now
  rfl

end Newsbot
